import Mathlib

/-!
Shallow embedding of `bevy-orbit-controls` (`src/lib.rs`, the Bevy 0.5
revision) over the real numbers: `f32` values are modelled as `ℝ`, the
`glam` vector/quaternion operations used by the code are spelled out, and
the two per-frame systems are modelled as per-entity state transformers
taking the frame's accumulated events explicitly.
-/

namespace OrbitControls

noncomputable section

/-- Planar vector (`glam::Vec2`), components over `ℝ`. -/
@[ext]
structure Vec2 where
  x : ℝ
  y : ℝ

/-- Constant `Vec2::ZERO`. -/
def Vec2.ZERO : Vec2 := ⟨0, 0⟩

instance : Add Vec2 := ⟨fun a b => ⟨a.x + b.x, a.y + b.y⟩⟩

@[simp] theorem Vec2.add_comps (a b : Vec2) : a + b = ⟨a.x + b.x, a.y + b.y⟩ := rfl

/-- Spatial vector (`glam::Vec3`), components over `ℝ`. -/
@[ext]
structure Vec3 where
  x : ℝ
  y : ℝ
  z : ℝ

/-- Constant `Vec3::ZERO`. -/
def Vec3.ZERO : Vec3 := ⟨0, 0, 0⟩

/-- Constant `Vec3::X`. -/
def Vec3.X : Vec3 := ⟨1, 0, 0⟩

/-- Constant `Vec3::Y`. -/
def Vec3.Y : Vec3 := ⟨0, 1, 0⟩

instance : Add Vec3 := ⟨fun a b => ⟨a.x + b.x, a.y + b.y, a.z + b.z⟩⟩
instance : Sub Vec3 := ⟨fun a b => ⟨a.x - b.x, a.y - b.y, a.z - b.z⟩⟩
instance : Neg Vec3 := ⟨fun a => ⟨-a.x, -a.y, -a.z⟩⟩
instance : HMul ℝ Vec3 Vec3 := ⟨fun s v => ⟨s * v.x, s * v.y, s * v.z⟩⟩
instance : HMul Vec3 ℝ Vec3 := ⟨fun v s => ⟨v.x * s, v.y * s, v.z * s⟩⟩

@[simp] theorem Vec3.add_def (a b : Vec3) : a + b = ⟨a.x + b.x, a.y + b.y, a.z + b.z⟩ := rfl
@[simp] theorem Vec3.sub_def (a b : Vec3) : a - b = ⟨a.x - b.x, a.y - b.y, a.z - b.z⟩ := rfl
@[simp] theorem Vec3.neg_def (a : Vec3) : -a = ⟨-a.x, -a.y, -a.z⟩ := rfl
@[simp] theorem Vec3.smul_def (s : ℝ) (v : Vec3) : s * v = ⟨s * v.x, s * v.y, s * v.z⟩ := rfl
@[simp] theorem Vec3.mul_scalar_def (v : Vec3) (s : ℝ) : v * s = ⟨v.x * s, v.y * s, v.z * s⟩ := rfl

/-- Dot product (`Vec3::dot`). -/
def Vec3.dot (a b : Vec3) : ℝ := a.x * b.x + a.y * b.y + a.z * b.z

/-- Cross product (`Vec3::cross`). -/
def Vec3.cross (a b : Vec3) : Vec3 :=
  ⟨a.y * b.z - a.z * b.y, a.z * b.x - a.x * b.z, a.x * b.y - a.y * b.x⟩

/-- Euclidean length (`Vec3::length`): square root of the self dot product. -/
def Vec3.length (v : Vec3) : ℝ := Real.sqrt (v.dot v)

/-- Normalization (`Vec3::normalize`): `self * self.length().recip()` (over `ℝ`, a
zero-length vector normalizes to zero since `(0 : ℝ)⁻¹ = 0`; the `f32`
code would produce non-finite components there). -/
def Vec3.normalize (v : Vec3) : Vec3 := v * (v.length)⁻¹

/-- Quaternion (`glam::Quat`), stored as `x, y, z, w`. -/
@[ext]
structure Quat where
  x : ℝ
  y : ℝ
  z : ℝ
  w : ℝ

/-- Axis-angle quaternion (`Quat::from_axis_angle`): `(axis * sin(angle/2), cos(angle/2))`. -/
def Quat.fromAxisAngle (axis : Vec3) (angle : ℝ) : Quat :=
  let s := Real.sin (angle * 0.5)
  let c := Real.cos (angle * 0.5)
  ⟨axis.x * s, axis.y * s, axis.z * s, c⟩

/-- Hamilton product (`glam::Quat::mul_quat`). -/
instance : Mul Quat :=
  ⟨fun a b =>
    ⟨a.w * b.x + a.x * b.w + a.y * b.z - a.z * b.y,
     a.w * b.y - a.x * b.z + a.y * b.w + a.z * b.x,
     a.w * b.z + a.x * b.y - a.y * b.x + a.z * b.w,
     a.w * b.w - a.x * b.x - a.y * b.y - a.z * b.z⟩⟩

/-- Rotate a vector by a quaternion (`glam::Quat::mul_vec3`):
`v * (w² - b·b) + b * (2 (v·b)) + (b × v) * (2 w)` with `b = (x,y,z)`. -/
def Quat.mulVec3 (q : Quat) (v : Vec3) : Vec3 :=
  let b : Vec3 := ⟨q.x, q.y, q.z⟩
  let b2 := b.dot b
  v * (q.w * q.w - b2) + b * (v.dot b * 2) + b.cross v * (q.w * 2)

instance : HMul Quat Vec3 Vec3 := ⟨Quat.mulVec3⟩

/-- Quaternion from a rotation matrix given by columns
(`glam::Quat::from_rotation_axes`, used by `from_rotation_mat3`):
the DirectXMath branch-on-largest-component construction. -/
def Quat.fromRotationAxes (xAxis yAxis zAxis : Vec3) : Quat :=
  let m00 := xAxis.x; let m01 := xAxis.y; let m02 := xAxis.z
  let m10 := yAxis.x; let m11 := yAxis.y; let m12 := yAxis.z
  let m20 := zAxis.x; let m21 := zAxis.y; let m22 := zAxis.z
  if m22 ≤ 0 then
    let dif10 := m11 - m00
    let omm22 := 1 - m22
    if dif10 ≤ 0 then
      let fourXsq := omm22 - dif10
      let inv4x := 0.5 / Real.sqrt fourXsq
      ⟨fourXsq * inv4x, (m01 + m10) * inv4x, (m02 + m20) * inv4x, (m12 - m21) * inv4x⟩
    else
      let fourYsq := omm22 + dif10
      let inv4y := 0.5 / Real.sqrt fourYsq
      ⟨(m01 + m10) * inv4y, fourYsq * inv4y, (m12 + m21) * inv4y, (m20 - m02) * inv4y⟩
  else
    let sum10 := m11 + m00
    let opm22 := 1 + m22
    if sum10 ≤ 0 then
      let fourZsq := opm22 - sum10
      let inv4z := 0.5 / Real.sqrt fourZsq
      ⟨(m02 + m20) * inv4z, (m12 + m21) * inv4z, fourZsq * inv4z, (m01 - m10) * inv4z⟩
    else
      let fourWsq := opm22 + sum10
      let inv4w := 0.5 / Real.sqrt fourWsq
      ⟨(m12 - m21) * inv4w, (m20 - m02) * inv4w, (m01 - m10) * inv4w, fourWsq * inv4w⟩

/-- Bevy 0.5's `Transform`: translation, rotation, scale. The plugin never
touches `scale`. -/
@[ext]
structure Transform where
  translation : Vec3
  rotation : Quat
  scale : Vec3

/-- Method `Transform::look_at(target, up)` in Bevy 0.5: forward is the normalized
vector from `target` to the translation, right and up are rebuilt by cross
products, and the rotation is read off the resulting rotation matrix. -/
def Transform.lookAt (tf : Transform) (target up : Vec3) : Transform :=
  let forward := Vec3.normalize (tf.translation - target)
  let right := Vec3.normalize (up.cross forward)
  let up' := forward.cross right
  { tf with rotation := Quat.fromRotationAxes right up' forward }

/-- Mouse button identifier (`bevy::input::mouse::MouseButton`; the `Other` payload is a `u16`). -/
inductive MouseButton where
  | Left
  | Right
  | Middle
  | Other (n : ℕ)
deriving DecidableEq

/-- Scroll unit tag (`bevy::input::mouse::MouseScrollUnit`). -/
inductive MouseScrollUnit where
  | Line
  | Pixel
deriving DecidableEq

/-- Pointer motion event (`bevy::input::mouse::MouseMotion`). -/
structure MouseMotion where
  delta : Vec2

/-- Scroll wheel event (`bevy::input::mouse::MouseWheel`; the plugin reads
`unit` and `y` only). -/
structure MouseWheel where
  unit : MouseScrollUnit
  x : ℝ
  y : ℝ

/-- Constant `LINE_TO_PIXEL_RATIO: f32 = 0.1`. -/
def LINE_TO_PIXEL_RATIO : ℝ := 0.1

/-- The `OrbitCamera` component. -/
@[ext]
structure OrbitCamera where
  x : ℝ
  y : ℝ
  distance : ℝ
  center : Vec3
  rotate_sensitivity : ℝ
  pan_sensitivity : ℝ
  zoom_sensitivity : ℝ
  rotate_button : MouseButton
  pan_button : MouseButton
  enabled : Bool

/-- Default values (`impl Default for OrbitCamera`). -/
def OrbitCamera.default : OrbitCamera where
  x := 0
  y := 0
  distance := 5.0
  center := Vec3.ZERO
  rotate_sensitivity := 1.0
  pan_sensitivity := 1.0
  zoom_sensitivity := 0.8
  rotate_button := MouseButton.Left
  pan_button := MouseButton.Right
  enabled := true

/-- Constructor `OrbitCamera::new(dist, center)`: seeds `distance` and `center`,
all remaining fields from `Self::default()`. -/
def OrbitCamera.new (dist : ℝ) (center : Vec3) : OrbitCamera :=
  { OrbitCamera.default with distance := dist, center := center }

/-- The accumulated pointer delta: `mouse_motion_system`'s first loop,
`delta += event.delta` starting from `Vec2::ZERO`. -/
def accumDelta (events : List MouseMotion) : Vec2 :=
  events.foldl (fun delta e => delta + e.delta) Vec2.ZERO

/-- The rotate branch of `mouse_motion_system` (`if pressed(rotate_button)`):
update yaw `x` and pitch `y`, clamp `y` to `[0.01, 3.13]`, place the
translation on the orbit sphere and look at the center. -/
def rotateStep (dt : ℝ) (delta : Vec2) (cam : OrbitCamera) (tf : Transform) :
    OrbitCamera × Transform :=
  let x' := cam.x - delta.x * cam.rotate_sensitivity * dt
  let y0 := cam.y - delta.y * cam.rotate_sensitivity * dt
  let y' := min (max y0 0.01) 3.13
  let cam' := { cam with x := x', y := y' }
  let rot := Quat.fromAxisAngle Vec3.Y cam'.x * Quat.fromAxisAngle (-Vec3.X) cam'.y
  let tf' := { tf with translation := (rot * Vec3.mk 0.0 1.0 0.0) * cam'.distance + cam'.center }
  (cam', tf'.lookAt cam'.center Vec3.Y)

/-- The pan vector of `mouse_motion_system`'s pan branch:
`(delta.x * right_dir + delta.y * up_dir) * pan_sensitivity * dt`, with
`right_dir = rotation * -X` and `up_dir = rotation * Y`. -/
def panVector (dt : ℝ) (delta : Vec2) (cam : OrbitCamera) (tf : Transform) : Vec3 :=
  let rightDir := tf.rotation * (-Vec3.X)
  let upDir := tf.rotation * Vec3.Y
  (delta.x * rightDir + delta.y * upDir) * cam.pan_sensitivity * dt

/-- The pan branch of `mouse_motion_system` (`if pressed(pan_button)`):
add the pan vector to both `center` and the translation. -/
def panStep (dt : ℝ) (delta : Vec2) (cam : OrbitCamera) (tf : Transform) :
    OrbitCamera × Transform :=
  let pv := panVector dt delta cam tf
  ({ cam with center := cam.center + pv }, { tf with translation := tf.translation + pv })

/-- Per-entity body of `OrbitCameraPlugin::mouse_motion_system` for one
frame: `dt` is `time.delta_seconds()`, `events` the frame's
`MouseMotion` events, `pressed` the button query. Disabled cameras are
skipped (`continue`); otherwise the rotate branch runs when the rotate
button is held, then the pan branch when the pan button is held. -/
def mouseMotionUpdate (dt : ℝ) (events : List MouseMotion)
    (pressed : MouseButton → Bool) (cam : OrbitCamera) (tf : Transform) :
    OrbitCamera × Transform :=
  let delta := accumDelta events
  if cam.enabled then
    let p1 := if pressed cam.rotate_button then rotateStep dt delta cam tf else (cam, tf)
    if pressed p1.1.pan_button then panStep dt delta p1.1 p1.2 else p1
  else
    (cam, tf)

/-- The accumulated scroll total of `zoom_system`: each event contributes
`y * 1.0` for `Line` units and `y * LINE_TO_PIXEL_RATIO` for `Pixel`
units. -/
def scrollTotal (events : List MouseWheel) : ℝ :=
  events.foldl
    (fun total e =>
      total + e.y * (match e.unit with
        | MouseScrollUnit.Line => 1.0
        | MouseScrollUnit.Pixel => LINE_TO_PIXEL_RATIO))
    0.0

/-- Per-entity body of `OrbitCameraPlugin::zoom_system` for one frame:
disabled cameras are skipped; otherwise
`distance *= zoom_sensitivity.powf(total)` and the translation is
re-derived as `normalize(translation - center) * distance + center`. -/
def zoomUpdate (events : List MouseWheel) (cam : OrbitCamera) (tf : Transform) :
    OrbitCamera × Transform :=
  let total := scrollTotal events
  if cam.enabled then
    let cam' := { cam with distance := cam.distance * cam.zoom_sensitivity ^ total }
    let tf' := { tf with
      translation := Vec3.normalize (tf.translation - cam'.center) * cam'.distance + cam'.center }
    (cam', tf')
  else
    (cam, tf)

/-- One full update pass as scheduled by the plugin for the claims that
compose the two systems: `mouse_motion_system` followed by `zoom_system`. -/
def updatePass (dt : ℝ) (motionEvents : List MouseMotion) (wheelEvents : List MouseWheel)
    (pressed : MouseButton → Bool) (cam : OrbitCamera) (tf : Transform) :
    OrbitCamera × Transform :=
  let p := mouseMotionUpdate dt motionEvents pressed cam tf
  zoomUpdate wheelEvents p.1 p.2


/-- Concrete transform used by witnesses: translation `(0, 5, 0)`,
identity rotation, unit scale (consistent with the default camera:
its distance from the default center is `5`). -/
def tf0 : Transform := ⟨⟨0, 5, 0⟩, ⟨0, 0, 0, 1⟩, ⟨1, 1, 1⟩⟩

/-- Concrete transform whose translation is not at the camera's orbit
distance from the default center: translation `(1, 0, 0)`. -/
def tfB : Transform := ⟨⟨1, 0, 0⟩, ⟨0, 0, 0, 1⟩, ⟨1, 1, 1⟩⟩

/-- Concrete button state holding only the secondary (pan) button. -/
def pressedPanOnly : MouseButton → Bool := fun b =>
  match b with
  | MouseButton.Right => true
  | _ => false

/-! Projection lemmas used throughout the proofs. -/

@[simp] theorem Vec2.ZERO_comp_x : Vec2.ZERO.x = 0 := rfl
@[simp] theorem Vec2.ZERO_comp_y : Vec2.ZERO.y = 0 := rfl
@[simp] theorem Vec3.ZERO_x : Vec3.ZERO.x = 0 := rfl
@[simp] theorem Vec3.ZERO_y : Vec3.ZERO.y = 0 := rfl
@[simp] theorem Vec3.ZERO_z : Vec3.ZERO.z = 0 := rfl

@[simp] theorem Vec3.add_ZERO (v : Vec3) : v + Vec3.ZERO = v := by
  ext <;> simp

@[simp] theorem OrbitCamera.default_x : OrbitCamera.default.x = 0 := rfl
@[simp] theorem OrbitCamera.default_y : OrbitCamera.default.y = 0 := rfl
@[simp] theorem OrbitCamera.default_distance : OrbitCamera.default.distance = 5.0 := rfl
@[simp] theorem OrbitCamera.default_center : OrbitCamera.default.center = Vec3.ZERO := rfl
@[simp] theorem OrbitCamera.default_rotate_sensitivity :
    OrbitCamera.default.rotate_sensitivity = 1.0 := rfl
@[simp] theorem OrbitCamera.default_pan_sensitivity :
    OrbitCamera.default.pan_sensitivity = 1.0 := rfl
@[simp] theorem OrbitCamera.default_zoom_sensitivity :
    OrbitCamera.default.zoom_sensitivity = 0.8 := rfl
@[simp] theorem OrbitCamera.default_rotate_button :
    OrbitCamera.default.rotate_button = MouseButton.Left := rfl
@[simp] theorem OrbitCamera.default_pan_button :
    OrbitCamera.default.pan_button = MouseButton.Right := rfl
@[simp] theorem OrbitCamera.default_enabled : OrbitCamera.default.enabled = true := rfl

@[simp] theorem accumDelta_nil : accumDelta [] = Vec2.ZERO := rfl

theorem scrollTotal_nil : scrollTotal [] = 0 := by
  show (0.0 : ℝ) = 0
  norm_num

@[simp] theorem rotateStep_fst_x (dt : ℝ) (delta : Vec2) (cam : OrbitCamera) (tf : Transform) :
    (rotateStep dt delta cam tf).1.x = cam.x - delta.x * cam.rotate_sensitivity * dt := rfl

@[simp] theorem rotateStep_fst_y (dt : ℝ) (delta : Vec2) (cam : OrbitCamera) (tf : Transform) :
    (rotateStep dt delta cam tf).1.y
      = min (max (cam.y - delta.y * cam.rotate_sensitivity * dt) 0.01) 3.13 := rfl

@[simp] theorem rotateStep_fst_pan_button (dt : ℝ) (delta : Vec2) (cam : OrbitCamera)
    (tf : Transform) : (rotateStep dt delta cam tf).1.pan_button = cam.pan_button := rfl

@[simp] theorem panStep_fst_x (dt : ℝ) (delta : Vec2) (cam : OrbitCamera) (tf : Transform) :
    (panStep dt delta cam tf).1.x = cam.x := rfl

@[simp] theorem panStep_fst_y (dt : ℝ) (delta : Vec2) (cam : OrbitCamera) (tf : Transform) :
    (panStep dt delta cam tf).1.y = cam.y := rfl

@[simp] theorem panStep_fst_center (dt : ℝ) (delta : Vec2) (cam : OrbitCamera) (tf : Transform) :
    (panStep dt delta cam tf).1.center = cam.center + panVector dt delta cam tf := rfl

@[simp] theorem panStep_snd_translation (dt : ℝ) (delta : Vec2) (cam : OrbitCamera)
    (tf : Transform) :
    (panStep dt delta cam tf).2.translation = tf.translation + panVector dt delta cam tf := rfl

@[simp] theorem zoomUpdate_fst_y (events : List MouseWheel) (cam : OrbitCamera)
    (tf : Transform) : (zoomUpdate events cam tf).1.y = cam.y := by
  simp only [zoomUpdate]
  split <;> rfl

/-- Helper: a pan step with zero accumulated delta changes nothing, because
the pan vector is then the zero vector. -/
theorem panVector_zero_delta (dt : ℝ) (cam : OrbitCamera) (tf : Transform) :
    panVector dt Vec2.ZERO cam tf = Vec3.ZERO := by
  unfold panVector
  ext <;> simp

theorem panStep_zero_delta (dt : ℝ) (cam : OrbitCamera) (tf : Transform) :
    panStep dt Vec2.ZERO cam tf = (cam, tf) := by
  simp only [panStep]
  rw [panVector_zero_delta, Vec3.add_ZERO, Vec3.add_ZERO]

/-- Helper: `mouse_motion_system` is a per-entity no-op when the rotate
button is not held and either the pan button is not held or the frame's
accumulated delta is zero. -/
theorem mouseMotionUpdate_noop (dt : ℝ) (events : List MouseMotion)
    (pressed : MouseButton → Bool) (cam : OrbitCamera) (tf : Transform)
    (hrot : pressed cam.rotate_button = false)
    (h : pressed cam.pan_button = false ∨ accumDelta events = Vec2.ZERO) :
    mouseMotionUpdate dt events pressed cam tf = (cam, tf) := by
  simp only [mouseMotionUpdate]
  by_cases hen : cam.enabled
  · have hr : (if pressed cam.rotate_button = true then rotateStep dt (accumDelta events) cam tf
        else (cam, tf)) = (cam, tf) := if_neg (by rw [hrot]; exact Bool.false_ne_true)
    rw [if_pos hen, hr]
    show (if pressed cam.pan_button = true then panStep dt (accumDelta events) cam tf
      else (cam, tf)) = (cam, tf)
    rcases h with hpan | hzero
    · rw [if_neg (by rw [hpan]; exact Bool.false_ne_true)]
    · rw [hzero]
      by_cases hp : pressed cam.pan_button
      · rw [if_pos hp, panStep_zero_delta]
      · rw [if_neg hp]
  · rw [if_neg hen]

/-- Helper: `zoom_system` with no scroll events is a per-entity no-op
provided the translation already lies at (positive) `distance` from
`center`. -/
theorem zoomUpdate_noop (cam : OrbitCamera) (tf : Transform)
    (hlen : (tf.translation - cam.center).length = cam.distance)
    (hd : 0 < cam.distance) :
    zoomUpdate [] cam tf = (cam, tf) := by
  simp only [zoomUpdate]
  by_cases hen : cam.enabled
  · rw [if_pos hen]
    have hne : cam.distance ≠ 0 := ne_of_gt hd
    have htr : Vec3.normalize (tf.translation - cam.center) * cam.distance + cam.center
        = tf.translation := by
      unfold Vec3.normalize
      rw [hlen]
      ext <;> simp <;> field_simp
    rw [scrollTotal_nil, Real.rpow_zero, mul_one, htr]
  · rw [if_neg hen]

/-- Helper: the yaw field after `mouse_motion_system` with the rotate
button held. -/
theorem mouseMotionUpdate_fst_x_rotate (dt : ℝ) (events : List MouseMotion)
    (pressed : MouseButton → Bool) (cam : OrbitCamera) (tf : Transform)
    (hen : cam.enabled = true) (hrot : pressed cam.rotate_button = true) :
    (mouseMotionUpdate dt events pressed cam tf).1.x
      = cam.x - (accumDelta events).x * cam.rotate_sensitivity * dt := by
  simp only [mouseMotionUpdate]
  rw [if_pos hen, if_pos hrot]
  by_cases hp : pressed (rotateStep dt (accumDelta events) cam tf).1.pan_button
  · rw [if_pos hp, panStep_fst_x, rotateStep_fst_x]
  · rw [if_neg hp, rotateStep_fst_x]

/-- Helper: the pitch field after `mouse_motion_system` with the rotate
button held. -/
theorem mouseMotionUpdate_fst_y_rotate (dt : ℝ) (events : List MouseMotion)
    (pressed : MouseButton → Bool) (cam : OrbitCamera) (tf : Transform)
    (hen : cam.enabled = true) (hrot : pressed cam.rotate_button = true) :
    (mouseMotionUpdate dt events pressed cam tf).1.y
      = min (max (cam.y - (accumDelta events).y * cam.rotate_sensitivity * dt) 0.01) 3.13 := by
  simp only [mouseMotionUpdate]
  rw [if_pos hen, if_pos hrot]
  by_cases hp : pressed (rotateStep dt (accumDelta events) cam tf).1.pan_button
  · rw [if_pos hp, panStep_fst_y, rotateStep_fst_y]
  · rw [if_neg hp, rotateStep_fst_y]

/-- Helper: the distance after `zoom_system` on an enabled camera. -/
theorem zoomUpdate_fst_distance (events : List MouseWheel) (cam : OrbitCamera)
    (tf : Transform) (hen : cam.enabled = true) :
    (zoomUpdate events cam tf).1.distance
      = cam.distance * cam.zoom_sensitivity ^ scrollTotal events := by
  simp only [zoomUpdate]
  rw [if_pos hen]

/-- Helper: the clamp `max · 0.01 |> min · 3.13` always lands in
`[0.01, 3.13]`. -/
theorem clamp_mem_Icc (a : ℝ) :
    0.01 ≤ min (max a 0.01) 3.13 ∧ min (max a 0.01) 3.13 ≤ 3.13 :=
  ⟨le_min (le_max_right a 0.01) (by norm_num), min_le_right _ _⟩

/-- C3: for every enabled `OrbitCamera` with the rotate button held, after
`mouse_motion_system` runs, the resulting pitch (field `y`) lies in
`[0.01, 3.13]`, for every accumulated pointer delta, every
`rotate_sensitivity` and every elapsed time. -/
theorem pitch_clamped (dt : ℝ) (events : List MouseMotion)
    (pressed : MouseButton → Bool) (cam : OrbitCamera) (tf : Transform)
    (hen : cam.enabled = true) (hrot : pressed cam.rotate_button = true) :
    0.01 ≤ (mouseMotionUpdate dt events pressed cam tf).1.y ∧
    (mouseMotionUpdate dt events pressed cam tf).1.y ≤ 3.13 := by
  rw [mouseMotionUpdate_fst_y_rotate dt events pressed cam tf hen hrot]
  exact clamp_mem_Icc _

/-- Witness for C3 at a concrete input. -/
theorem pitch_clamped_witness :
    0.01 ≤ (mouseMotionUpdate 1 [] (fun _ => true) OrbitCamera.default tf0).1.y ∧
    (mouseMotionUpdate 1 [] (fun _ => true) OrbitCamera.default tf0).1.y ≤ 3.13 :=
  pitch_clamped 1 [] (fun _ => true) OrbitCamera.default tf0 rfl rfl

/-- C4: `distance > 0` is preserved by the zoom updater: for every enabled
camera with positive `distance` and positive `zoom_sensitivity`, after
`zoom_system` runs with any accumulated scroll total, `distance` is still
strictly positive. -/
theorem zoom_preserves_distance_pos (events : List MouseWheel) (cam : OrbitCamera)
    (tf : Transform) (hen : cam.enabled = true) (hd : 0 < cam.distance)
    (hs : 0 < cam.zoom_sensitivity) :
    0 < (zoomUpdate events cam tf).1.distance := by
  rw [zoomUpdate_fst_distance events cam tf hen]
  exact mul_pos hd (Real.rpow_pos_of_pos hs _)

/-- Witness for C4 at a concrete input. -/
theorem zoom_preserves_distance_pos_witness :
    0 < (zoomUpdate [] OrbitCamera.default tf0).1.distance :=
  zoom_preserves_distance_pos [] OrbitCamera.default tf0 rfl (by norm_num) (by norm_num)

/-- C5: for an enabled camera with positive `distance` and
`zoom_sensitivity` strictly between 0 and 1, the zoom updater multiplies
`distance` by `zoom_sensitivity ^ total`; a positive converted scroll
total strictly decreases `distance` and a negative one strictly
increases it. -/
theorem zoom_exponential_monotone (events : List MouseWheel) (cam : OrbitCamera)
    (tf : Transform) (hen : cam.enabled = true) (hd : 0 < cam.distance)
    (hs0 : 0 < cam.zoom_sensitivity) (hs1 : cam.zoom_sensitivity < 1) :
    (zoomUpdate events cam tf).1.distance
        = cam.distance * cam.zoom_sensitivity ^ scrollTotal events ∧
    (0 < scrollTotal events → (zoomUpdate events cam tf).1.distance < cam.distance) ∧
    (scrollTotal events < 0 → cam.distance < (zoomUpdate events cam tf).1.distance) := by
  have he := zoomUpdate_fst_distance events cam tf hen
  refine ⟨he, fun ht => ?_, fun ht => ?_⟩
  · rw [he]
    exact mul_lt_of_lt_one_right hd (Real.rpow_lt_one hs0.le hs1 ht)
  · rw [he]
    exact lt_mul_of_one_lt_right hd
      ((Real.one_lt_rpow_iff_of_pos hs0).mpr (Or.inr ⟨hs1, ht⟩))

/-- Witness for C5 at a concrete input. -/
theorem zoom_exponential_monotone_witness :
    (zoomUpdate [⟨MouseScrollUnit.Line, 0, 1⟩] OrbitCamera.default tf0).1.distance
        = OrbitCamera.default.distance
            * OrbitCamera.default.zoom_sensitivity
              ^ scrollTotal [⟨MouseScrollUnit.Line, 0, 1⟩] ∧
    (0 < scrollTotal [⟨MouseScrollUnit.Line, 0, 1⟩] →
      (zoomUpdate [⟨MouseScrollUnit.Line, 0, 1⟩] OrbitCamera.default tf0).1.distance
        < OrbitCamera.default.distance) ∧
    (scrollTotal [⟨MouseScrollUnit.Line, 0, 1⟩] < 0 →
      OrbitCamera.default.distance
        < (zoomUpdate [⟨MouseScrollUnit.Line, 0, 1⟩] OrbitCamera.default tf0).1.distance) :=
  zoom_exponential_monotone [⟨MouseScrollUnit.Line, 0, 1⟩] OrbitCamera.default tf0
    rfl (by norm_num) (by norm_num) (by norm_num)

/-- C6: a camera with `enabled = false` is never mutated by either system,
nor is its paired transform, for every input. -/
theorem disabled_never_mutated (dt : ℝ) (motion : List MouseMotion)
    (wheel : List MouseWheel) (pressed : MouseButton → Bool) (cam : OrbitCamera)
    (tf : Transform) (hdis : cam.enabled = false) :
    mouseMotionUpdate dt motion pressed cam tf = (cam, tf) ∧
    zoomUpdate wheel cam tf = (cam, tf) := by
  have hne : ¬(cam.enabled = true) := by rw [hdis]; exact Bool.false_ne_true
  constructor
  · simp only [mouseMotionUpdate]
    rw [if_neg hne]
  · simp only [zoomUpdate]
    rw [if_neg hne]

/-- Witness for C6 at a concrete input. -/
theorem disabled_never_mutated_witness :
    mouseMotionUpdate 1 [⟨⟨10, 0⟩⟩] (fun _ => true)
        { OrbitCamera.default with enabled := false } tf0
      = ({ OrbitCamera.default with enabled := false }, tf0) ∧
    zoomUpdate [⟨MouseScrollUnit.Line, 0, 1⟩]
        { OrbitCamera.default with enabled := false } tf0
      = ({ OrbitCamera.default with enabled := false }, tf0) :=
  disabled_never_mutated 1 [⟨⟨10, 0⟩⟩] [⟨MouseScrollUnit.Line, 0, 1⟩] (fun _ => true)
    { OrbitCamera.default with enabled := false } tf0 rfl

/-- C9: a single scroll event of unit pixel with vertical value `10.0`
produces exactly the same resulting state as a single line event with
vertical value `1.0`, for every enabled camera and transform. -/
theorem pixel_line_equivalence (cam : OrbitCamera) (tf : Transform)
    (hen : cam.enabled = true) :
    zoomUpdate [⟨MouseScrollUnit.Pixel, 0, 10⟩] cam tf
      = zoomUpdate [⟨MouseScrollUnit.Line, 0, 1⟩] cam tf := by
  have h : scrollTotal [⟨MouseScrollUnit.Pixel, 0, 10⟩]
      = scrollTotal [⟨MouseScrollUnit.Line, 0, 1⟩] := by
    simp only [scrollTotal, List.foldl_cons, List.foldl_nil]
    norm_num [ LINE_TO_PIXEL_RATIO]
  simp only [zoomUpdate]
  rw [h]

/-- Witness for C9 at a concrete input. -/
theorem pixel_line_equivalence_witness :
    zoomUpdate [⟨MouseScrollUnit.Pixel, 0, 10⟩] OrbitCamera.default tf0
      = zoomUpdate [⟨MouseScrollUnit.Line, 0, 1⟩] OrbitCamera.default tf0 :=
  pixel_line_equivalence OrbitCamera.default tf0 rfl

/-- C10: `OrbitCamera::new(dist, center)` seeds `distance` and `center`
and leaves every other field at its default value. -/
theorem new_seeds_distance_center (dist : ℝ) (center : Vec3) :
    (OrbitCamera.new dist center).distance = dist ∧
    (OrbitCamera.new dist center).center = center ∧
    (OrbitCamera.new dist center).x = 0 ∧
    (OrbitCamera.new dist center).y = 0 ∧
    (OrbitCamera.new dist center).rotate_sensitivity = 1.0 ∧
    (OrbitCamera.new dist center).pan_sensitivity = 1.0 ∧
    (OrbitCamera.new dist center).zoom_sensitivity = 0.8 ∧
    (OrbitCamera.new dist center).rotate_button = MouseButton.Left ∧
    (OrbitCamera.new dist center).pan_button = MouseButton.Right ∧
    (OrbitCamera.new dist center).enabled = true :=
  ⟨rfl, rfl, rfl, rfl, rfl, rfl, rfl, rfl, rfl, rfl⟩

/-- Helper: the translation after `zoom_system` on an enabled camera. -/
theorem zoomUpdate_snd_translation (events : List MouseWheel) (cam : OrbitCamera)
    (tf : Transform) (hen : cam.enabled = true) :
    (zoomUpdate events cam tf).2.translation
      = Vec3.normalize (tf.translation - cam.center)
          * (cam.distance * cam.zoom_sensitivity ^ scrollTotal events) + cam.center := by
  simp only [zoomUpdate]
  rw [if_pos hen]

/-- C7: in a pure-pan frame (pan held, rotate not held) on an enabled
camera, `mouse_motion_system` adds the same pan vector to both `center`
and the translation, so the offset `translation - center` is preserved. -/
theorem pan_preserves_offset (dt : ℝ) (events : List MouseMotion)
    (pressed : MouseButton → Bool) (cam : OrbitCamera) (tf : Transform)
    (hen : cam.enabled = true) (hrot : pressed cam.rotate_button = false)
    (hpan : pressed cam.pan_button = true) :
    (mouseMotionUpdate dt events pressed cam tf).1.center
        = cam.center + panVector dt (accumDelta events) cam tf ∧
    (mouseMotionUpdate dt events pressed cam tf).2.translation
        = tf.translation + panVector dt (accumDelta events) cam tf ∧
    (mouseMotionUpdate dt events pressed cam tf).2.translation
          - (mouseMotionUpdate dt events pressed cam tf).1.center
        = tf.translation - cam.center := by
  have hres : mouseMotionUpdate dt events pressed cam tf
      = panStep dt (accumDelta events) cam tf := by
    simp only [mouseMotionUpdate]
    have hr : (if pressed cam.rotate_button = true
        then rotateStep dt (accumDelta events) cam tf else (cam, tf)) = (cam, tf) :=
      if_neg (by rw [hrot]; exact Bool.false_ne_true)
    rw [if_pos hen, hr]
    show (if pressed cam.pan_button = true then panStep dt (accumDelta events) cam tf
      else (cam, tf)) = panStep dt (accumDelta events) cam tf
    rw [if_pos hpan]
  rw [hres, panStep_fst_center, panStep_snd_translation]
  refine ⟨rfl, rfl, ?_⟩
  ext <;> simp

/-- Witness for C7 at a concrete input. -/
theorem pan_preserves_offset_witness :
    (mouseMotionUpdate 1 [⟨⟨3, 4⟩⟩] pressedPanOnly OrbitCamera.default tf0).1.center
        = OrbitCamera.default.center
            + panVector 1 (accumDelta [⟨⟨3, 4⟩⟩]) OrbitCamera.default tf0 ∧
    (mouseMotionUpdate 1 [⟨⟨3, 4⟩⟩] pressedPanOnly OrbitCamera.default tf0).2.translation
        = tf0.translation + panVector 1 (accumDelta [⟨⟨3, 4⟩⟩]) OrbitCamera.default tf0 ∧
    (mouseMotionUpdate 1 [⟨⟨3, 4⟩⟩] pressedPanOnly OrbitCamera.default tf0).2.translation
          - (mouseMotionUpdate 1 [⟨⟨3, 4⟩⟩] pressedPanOnly OrbitCamera.default tf0).1.center
        = tf0.translation - OrbitCamera.default.center :=
  pan_preserves_offset 1 [⟨⟨3, 4⟩⟩] pressedPanOnly OrbitCamera.default tf0 rfl rfl rfl

/-- C2 is false as stated: with the rotate button held and zero
accumulated delta, the default camera's pitch is still mutated (clamped
from `0` to `0.01`) by `mouse_motion_system`. -/
theorem mouseMotion_zero_delta_counterexample :
    (mouseMotionUpdate 1 [] (fun _ => true) OrbitCamera.default tf0).1.y
      ≠ OrbitCamera.default.y := by
  rw [mouseMotionUpdate_fst_y_rotate 1 [] (fun _ => true) OrbitCamera.default tf0 rfl rfl]
  have h1 : max (0:ℝ) 0.01 = 0.01 := max_eq_right (by norm_num)
  have h2 : min (0.01:ℝ) 3.13 = 0.01 := min_eq_left (by norm_num)
  norm_num [h1, h2]

/-- C2 (amended): `mouse_motion_system` leaves the state record and the
transform unchanged whenever the rotate button is not held and either the
pan button is not held or the accumulated pointer delta is zero. (With
the rotate button held and zero delta, the pitch clamp and the
spherical-placement recomputation can still mutate state.) -/
theorem mouseMotion_noop_cases (dt : ℝ) (events : List MouseMotion)
    (pressed : MouseButton → Bool) (cam : OrbitCamera) (tf : Transform)
    (hen : cam.enabled = true)
    (hrot : pressed cam.rotate_button = false)
    (h : pressed cam.pan_button = false ∨ accumDelta events = Vec2.ZERO) :
    mouseMotionUpdate dt events pressed cam tf = (cam, tf) :=
  mouseMotionUpdate_noop dt events pressed cam tf hrot h

/-- Witness for the amended C2 at a concrete input. -/
theorem mouseMotion_noop_cases_witness :
    mouseMotionUpdate 1 [⟨⟨3, 4⟩⟩] (fun _ => false) OrbitCamera.default tf0
      = (OrbitCamera.default, tf0) :=
  mouseMotion_noop_cases 1 [⟨⟨3, 4⟩⟩] (fun _ => false) OrbitCamera.default tf0
    rfl rfl (Or.inl rfl)

/-- C1 is false as stated: with zero pointer and scroll events, (a) if the
rotate button is held the default camera's pitch is mutated, and (b) even
with no button held, the zoom renormalization rewrites a translation that
is not at exactly `distance` from `center`. -/
theorem updatePass_no_input_counterexample :
    (updatePass 1 [] [] (fun _ => true) OrbitCamera.default tf0).1.y
        ≠ OrbitCamera.default.y ∧
    (updatePass 1 [] [] (fun _ => false) OrbitCamera.default tfB).2.translation
        ≠ tfB.translation := by
  constructor
  · simp only [updatePass]
    rw [zoomUpdate_fst_y]
    rw [mouseMotionUpdate_fst_y_rotate 1 [] (fun _ => true) OrbitCamera.default tf0 rfl rfl]
    have h1 : max (0:ℝ) 0.01 = 0.01 := max_eq_right (by norm_num)
    have h2 : min (0.01:ℝ) 3.13 = 0.01 := min_eq_left (by norm_num)
    norm_num [h1, h2]
  · simp only [updatePass]
    rw [mouseMotionUpdate_noop 1 [] (fun _ => false) OrbitCamera.default tfB rfl (Or.inl rfl)]
    intro hEq
    rw [zoomUpdate_snd_translation [] OrbitCamera.default tfB rfl, scrollTotal_nil,
      Real.rpow_zero, mul_one] at hEq
    have hx := congrArg Vec3.x hEq
    simp only [Vec3.normalize, Vec3.length, Vec3.dot, tfB, OrbitCamera.default_center,
      OrbitCamera.default_distance, Vec3.sub_def, Vec3.mul_scalar_def, Vec3.add_def,
      Vec3.ZERO] at hx
    norm_num [Real.sqrt_one] at hx

/-- C1 (amended): an update pass (`mouse_motion_system` then `zoom_system`)
with zero pointer-motion and zero scroll events leaves the state record
and the transform unchanged, for any pan-button state and any elapsed
time, provided the rotate button is not held and the transform's
translation lies at exactly the (positive) orbit `distance` from
`center`. -/
theorem updatePass_no_input_noop (dt : ℝ) (pressed : MouseButton → Bool)
    (cam : OrbitCamera) (tf : Transform)
    (hen : cam.enabled = true)
    (hrot : pressed cam.rotate_button = false)
    (hlen : (tf.translation - cam.center).length = cam.distance)
    (hd : 0 < cam.distance) :
    updatePass dt [] [] pressed cam tf = (cam, tf) := by
  simp only [updatePass]
  rw [mouseMotionUpdate_noop dt [] pressed cam tf hrot (Or.inr accumDelta_nil)]
  exact zoomUpdate_noop cam tf hlen hd

/-- Witness for the amended C1 at a concrete input. -/
theorem updatePass_no_input_noop_witness :
    updatePass 1 [] [] (fun _ => false) OrbitCamera.default tf0
      = (OrbitCamera.default, tf0) :=
  updatePass_no_input_noop 1 (fun _ => false) OrbitCamera.default tf0 rfl rfl
    (by
      simp only [tf0, OrbitCamera.default_center, OrbitCamera.default_distance,
        Vec3.length, Vec3.dot, Vec3.sub_def, Vec3.ZERO]
      norm_num
      rw [show (25:ℝ) = 5 ^ 2 by norm_num]
      exact Real.sqrt_sq (by norm_num))
    (by norm_num)

/-- C8: the default camera has exactly the documented field values, and
one `mouse_motion_system` frame from the default state with the rotate
button held, `dt = 1` and accumulated delta `(10, 0)` yields yaw
`x = -10` and pitch `y = 0.01` (initial pitch `0` clamped up). -/
theorem default_rotate_frame_scenario (pressed : MouseButton → Bool) (tf : Transform)
    (h : pressed OrbitCamera.default.rotate_button = true) :
    OrbitCamera.default.x = 0 ∧
    OrbitCamera.default.y = 0 ∧
    OrbitCamera.default.distance = 5.0 ∧
    OrbitCamera.default.center = Vec3.ZERO ∧
    OrbitCamera.default.rotate_sensitivity = 1.0 ∧
    OrbitCamera.default.pan_sensitivity = 1.0 ∧
    OrbitCamera.default.zoom_sensitivity = 0.8 ∧
    OrbitCamera.default.rotate_button = MouseButton.Left ∧
    OrbitCamera.default.pan_button = MouseButton.Right ∧
    OrbitCamera.default.enabled = true ∧
    (mouseMotionUpdate 1 [⟨⟨10, 0⟩⟩] pressed OrbitCamera.default tf).1.x = -10 ∧
    (mouseMotionUpdate 1 [⟨⟨10, 0⟩⟩] pressed OrbitCamera.default tf).1.y = 0.01 := by
  have hdel : accumDelta [⟨⟨10, 0⟩⟩] = ⟨10, 0⟩ := by
    simp only [accumDelta, List.foldl_cons, List.foldl_nil]
    ext <;> simp
  refine ⟨rfl, rfl, rfl, rfl, rfl, rfl, rfl, rfl, rfl, rfl, ?_, ?_⟩
  · rw [mouseMotionUpdate_fst_x_rotate 1 [⟨⟨10, 0⟩⟩] pressed OrbitCamera.default tf rfl h,
      hdel]
    norm_num
  · rw [mouseMotionUpdate_fst_y_rotate 1 [⟨⟨10, 0⟩⟩] pressed OrbitCamera.default tf rfl h,
      hdel]
    have h1 : max (0:ℝ) 0.01 = 0.01 := max_eq_right (by norm_num)
    have h2 : min (0.01:ℝ) 3.13 = 0.01 := min_eq_left (by norm_num)
    norm_num [h1, h2]

/-- Witness for C8 at a concrete input. -/
theorem default_rotate_frame_scenario_witness :
    OrbitCamera.default.x = 0 ∧
    OrbitCamera.default.y = 0 ∧
    OrbitCamera.default.distance = 5.0 ∧
    OrbitCamera.default.center = Vec3.ZERO ∧
    OrbitCamera.default.rotate_sensitivity = 1.0 ∧
    OrbitCamera.default.pan_sensitivity = 1.0 ∧
    OrbitCamera.default.zoom_sensitivity = 0.8 ∧
    OrbitCamera.default.rotate_button = MouseButton.Left ∧
    OrbitCamera.default.pan_button = MouseButton.Right ∧
    OrbitCamera.default.enabled = true ∧
    (mouseMotionUpdate 1 [⟨⟨10, 0⟩⟩] (fun _ => true) OrbitCamera.default tf0).1.x = -10 ∧
    (mouseMotionUpdate 1 [⟨⟨10, 0⟩⟩] (fun _ => true) OrbitCamera.default tf0).1.y = 0.01 :=
  default_rotate_frame_scenario (fun _ => true) tf0 rfl

end

end OrbitControls
